import Mathlib

/-!
Verification of the Media Job Client (`src/lib/video-service.ts`).

The TypeScript class `VideoService` is embedded shallowly: each `async`
method becomes a pure Lean function that, given the service configuration,
the caller's arguments and oracles standing for the two transports (the
provider SDK built by `createFrontendOpenAI`, and `fetch` against the
backend proxy), returns the value or error produced by the method together
with the list of transport invocations it issued.  JavaScript strings are
Lean `String`s, `parseInt` and regular-expression matching are implemented
below, and JS truthiness of the optional configuration strings is made
explicit (`undefined`/`null`/`""` are falsy).
-/

namespace VideoServiceModel

/-- Decimal digit test, `\d` of the JS regexes used by the service. -/
def isDigitChar (c : Char) : Bool :=
  ('0' ≤ c) && (c ≤ '9')

/-- ASCII whitespace skipped by JS `parseInt` before the sign and digits. -/
def isJsSpace (c : Char) : Bool :=
  c == ' ' || c == '\t' || c == '\n' || c == '\r' ||
  c == Char.ofNat 11 || c == Char.ofNat 12

/-- Value of a list of decimal digit characters, most significant first. -/
def digitsToNat (ds : List Char) : Nat :=
  ds.foldl (fun n c => 10 * n + (c.toNat - 48)) 0

/-- Parse the longest leading run of decimal digits of `cs`; `none` when
there is no digit (`parseInt` yields `NaN` there). -/
def parseIntFrom (cs : List Char) (sign : Int) : Option Int :=
  let ds := cs.takeWhile isDigitChar
  if ds.isEmpty then none
  else some (sign * (digitsToNat ds : Int))

/-- Model of JavaScript `parseInt(s, 10)`: skip leading whitespace, read an
optional sign, then the longest run of decimal digits, ignoring anything
after it; `none` models the `NaN` result. -/
def jsParseInt (s : String) : Option Int :=
  match s.data.dropWhile isJsSpace with
  | [] => none
  | c :: rest =>
    if c == '+' then parseIntFrom rest 1
    else if c == '-' then parseIntFrom rest (-1)
    else parseIntFrom (c :: rest) 1

/-- JS truthiness of an optional configuration string: `undefined`/`null`
(modelled as `none`) and the empty string are falsy. -/
def truthy : Option String → Bool
  | none => false
  | some s => !(s == "")

/-- A value thrown by the provider SDK and caught by `handleFrontendError`.
`primitive` stands for a thrown non-object (string, number, `null`, …);
`obj` records the fields the handler inspects: the `status` field when it
is a number, the `code` field when it is a string, whether the value is an
`instanceof Error`, and its `message`. -/
inductive ThrownValue where
  | primitive (description : String)
  | obj (status : Option Int) (code : Option String) (isError : Bool) (message : String)
  deriving DecidableEq, Repr

/-- The errors the service can raise.  The TypeScript code throws plain
`Error` objects everywhere except for `InvalidApiKeyError`; each throw site
is kept apart here so that the statements can tell a validation failure
from a configuration failure from a transport failure.
`rethrownError` is the unchanged SDK error re-raised by
`handleFrontendError`; `jsonParseError` stands for a rejected
`response.json()` on an HTTP body that is not JSON. -/
inductive VideoError where
  | validationError (message : String)
  | configurationError (message : String)
  | invalidApiKeyError
  | rethrownError (e : ThrownValue)
  | transportError (message : String)
  | jsonParseError
  deriving DecidableEq, Repr

/-- `'API key is required for frontend mode'` (lines 71, 126, 161, 188, 217). -/
def apiKeyRequiredError : VideoError :=
  .configurationError "API key is required for frontend mode"

/-- Message of the validation error thrown by `normalizeSeconds` (line 28). -/
def invalidDurationMessage (value : String) : String :=
  "Invalid duration: " ++ value ++ ". Duration must be a positive number."

/-- Message of the validation error thrown by `normalizeSize` (line 38). -/
def invalidSizeMessage (value : String) : String :=
  "Invalid video size format: " ++ value ++ ". Must be in format WIDTHxHEIGHT (e.g., 1280x720)"

/-- `VideoService.normalizeSeconds` (lines 22–32).  The `number | string`
argument is represented by its string form (`value.toString()` is applied
at entry).  `parseInt(value, 10)`; `NaN` or a value `≤ 0` throws the
validation error; otherwise the ORIGINAL string is returned. -/
def normalizeSeconds (value : String) : Except VideoError String :=
  let secondsValue := value
  match jsParseInt secondsValue with
  | none => .error (.validationError (invalidDurationMessage value))
  | some numericValue =>
    if numericValue ≤ 0 then .error (.validationError (invalidDurationMessage value))
    else .ok secondsValue

/-- Test of the anchored regex `^\d+x\d+$` of `normalizeSize` (line 36):
one or more digits, the letter `x`, one or more digits, nothing else. -/
def sizeRegexTest (s : String) : Bool :=
  let ds := s.data.takeWhile isDigitChar
  let rest := s.data.dropWhile isDigitChar
  !ds.isEmpty &&
    match rest with
    | [] => false
    | c :: rest2 => c == 'x' && !rest2.isEmpty && rest2.all isDigitChar

/-- `VideoService.normalizeSize` (lines 34–41). -/
def normalizeSize (value : String) : Except VideoError String :=
  if !(sizeRegexTest value) then .error (.validationError (invalidSizeMessage value))
  else .ok value

/-- Message of the generic error thrown for a non-object SDK failure (line 56). -/
def unexpectedErrorMessage : String :=
  "Unexpected error while communicating with OpenAI."

/-- The `status === 401 || status === 403` test of line 47, on the `status`
field when it is a number. -/
def statusIsAuthFailure : Option Int → Bool
  | some s => s == 401 || s == 403
  | none => false

/-- `VideoService.handleFrontendError` (lines 43–57): an object whose
numeric `status` is 401/403 or whose string `code` is `'invalid_api_key'`
becomes `InvalidApiKeyError`; any other `Error` is re-raised unchanged;
anything else is wrapped in a generic error with a fixed message. -/
def handleFrontendError : ThrownValue → VideoError
  | .primitive _ => .transportError unexpectedErrorMessage
  | .obj status code isError message =>
    if statusIsAuthFailure status || code == some "invalid_api_key" then
      .invalidApiKeyError
    else if isError then
      .rethrownError (.obj status code isError message)
    else
      .transportError unexpectedErrorMessage

/-- Whether a thrown value takes the `InvalidApiKeyError` branch of
`handleFrontendError` (line 47). -/
def isAuthFailureValue : ThrownValue → Bool
  | .primitive _ => false
  | .obj status code _ _ => statusIsAuthFailure status || code == some "invalid_api_key"

/-- `ApiMode` (line 6): `frontend` is the provider-direct mode, `backend`
the backend-proxy mode. -/
inductive ApiMode where
  | frontend
  | backend
  deriving DecidableEq, Repr

/-- `ServiceConfig` (lines 8–13).  `none` stands for an absent
(`undefined`/`null`) optional field. -/
structure ServiceConfig where
  mode : ApiMode
  clientApiKey : Option String
  clientPasswordHash : Option String
  baseURL : Option String
  deriving DecidableEq, Repr

/-- A `File` attachment, opaque to the service, identified by a tag. -/
structure FileRef where
  tag : Nat
  deriving DecidableEq, Repr

/-- A binary blob returned by a download. -/
structure Blob where
  bytes : List Nat
  deriving DecidableEq, Repr

/-- A provider job record.  The service treats it as a pass-through value
(`video as VideoJob` / `response.json()`); `extra` stands for whatever
further fields the provider sends. -/
structure VideoJob where
  id : String
  status : String
  extra : List (String × String)
  deriving DecidableEq, Repr

/-- One entry of a multipart `FormData` body: a text field or a file. -/
inductive FormPart where
  | text (value : String)
  | file (f : FileRef)
  deriving DecidableEq, Repr

/-- The JSON body `JSON.stringify({prompt, passwordHash})` sent by the
backend-proxy remix (lines 143–146); `passwordHash = none` models the
`undefined` config value, whose key `JSON.stringify` omits. -/
structure RemixBody where
  prompt : String
  passwordHash : Option String
  deriving DecidableEq, Repr

/-- Body of a backend-proxy HTTP request. -/
inductive HttpBody where
  | empty
  | form (fields : List (String × FormPart))
  | jsonRemix (b : RemixBody)
  deriving DecidableEq, Repr

/-- A `fetch` invocation as issued by the backend-proxy branches. -/
structure HttpRequest where
  url : String
  method : String
  headers : List (String × String)
  body : HttpBody
  deriving DecidableEq, Repr

/-- The parts of a `fetch` response the service reads: `ok`, `status`,
`statusText`, the parsed JSON body (`jsonFails` models a `response.json()`
rejection; otherwise `errorField` is the body's `error` member when it is
a string, and `jobBody` the body read as a job record), and the blob. -/
structure HttpResponse where
  ok : Bool
  status : Nat
  statusText : String
  jsonFails : Bool
  errorField : Option String
  jobBody : VideoJob
  blobBody : Blob
  deriving DecidableEq, Repr

/-- Parameters of `createVideo` (lines 59–65): `model`, `prompt`, `size`
and `seconds` are strings at the transport level; the optional attachment
is `input_reference`. -/
structure CreateParams where
  model : String
  prompt : String
  size : String
  seconds : String
  input_reference : Option FileRef
  deriving DecidableEq, Repr

/-- The `VideoCreateParams` object passed to `openai.videos.create`
(lines 76–85): `input_reference` is set only when the caller supplied an
attachment. -/
structure SdkCreateParams where
  model : String
  prompt : String
  size : String
  seconds : String
  input_reference : Option FileRef
  deriving DecidableEq, Repr

/-- An invocation of the provider SDK (the client built by
`createFrontendOpenAI(clientApiKey, baseURL)` followed by one
`openai.videos.*` call). -/
inductive SdkCall where
  | create (apiKey : String) (baseURL : Option String) (p : SdkCreateParams)
  | remix (apiKey : String) (baseURL : Option String) (videoId : String) (prompt : String)
  | retrieve (apiKey : String) (baseURL : Option String) (videoId : String)
  | del (apiKey : String) (baseURL : Option String) (videoId : String)
  | download (apiKey : String) (baseURL : Option String) (videoId : String) (variant : String)
  deriving DecidableEq, Repr

/-- A transport invocation: a provider SDK call or a backend `fetch`. -/
inductive Call where
  | sdk (c : SdkCall)
  | http (r : HttpRequest)
  deriving DecidableEq, Repr

/-- Result of running one service method: the value returned or error
thrown, together with the transport invocations issued (the spy record). -/
structure RunResult (α : Type) where
  result : Except VideoError α
  calls : List Call

instance {ε α : Type} [DecidableEq ε] [DecidableEq α] : DecidableEq (Except ε α) := fun a b =>
  match a, b with
  | .ok x, .ok y =>
    if h : x = y then isTrue (by rw [h]) else isFalse (by intro hc; cases hc; exact h rfl)
  | .error x, .error y =>
    if h : x = y then isTrue (by rw [h]) else isFalse (by intro hc; cases hc; exact h rfl)
  | .ok _, .error _ => isFalse (by intro hc; cases hc)
  | .error _, .ok _ => isFalse (by intro hc; cases hc)

/-- `result.error || fallback` of the backend error paths (lines 116, 151,
206): the `error` member of the parsed body when it is a non-empty
(truthy) string, the fallback message otherwise. -/
def errorOrFallback (errorField : Option String) (fallback : String) : String :=
  match errorField with
  | some s => if s == "" then fallback else s
  | none => fallback

/-- `` `API request failed with status ${response.status}` `` (lines 116, 151). -/
def apiRequestFailedMessage (status : Nat) : String :=
  "API request failed with status " ++ toString status

/-- `VideoService.createVideo` (lines 59–121).  `sdk` is the oracle for
`openai.videos.create`, `http` the oracle for `fetch`. -/
def createVideoRun (cfg : ServiceConfig) (params : CreateParams)
    (sdk : SdkCall → Except ThrownValue VideoJob)
    (http : HttpRequest → HttpResponse) : RunResult VideoJob :=
  match normalizeSeconds params.seconds with
  | .error e => ⟨.error e, []⟩
  | .ok normalizedSeconds =>
  match normalizeSize params.size with
  | .error e => ⟨.error e, []⟩
  | .ok normalizedSize =>
  match cfg.mode with
  | .frontend =>
    if truthy cfg.clientApiKey then
      let call := SdkCall.create (cfg.clientApiKey.getD "") cfg.baseURL
        ⟨params.model, params.prompt, normalizedSize, normalizedSeconds, params.input_reference⟩
      match sdk call with
      | .ok video => ⟨.ok video, [.sdk call]⟩
      | .error e => ⟨.error (handleFrontendError e), [.sdk call]⟩
    else ⟨.error apiKeyRequiredError, []⟩
  | .backend =>
    let fields :=
      (if truthy cfg.clientPasswordHash then
        [("passwordHash", FormPart.text (cfg.clientPasswordHash.getD ""))]
      else []) ++
      [("model", FormPart.text params.model), ("prompt", FormPart.text params.prompt),
       ("size", FormPart.text normalizedSize), ("seconds", FormPart.text normalizedSeconds)] ++
      (match params.input_reference with
       | some f => [("input_reference", FormPart.file f)]
       | none => [])
    let req : HttpRequest := ⟨"/api/videos", "POST", [], .form fields⟩
    let r := http req
    if r.ok then
      if r.jsonFails then ⟨.error .jsonParseError, [.http req]⟩
      else ⟨.ok r.jobBody, [.http req]⟩
    else
      if r.jsonFails then ⟨.error .jsonParseError, [.http req]⟩
      else ⟨.error (.transportError (errorOrFallback r.errorField
        (apiRequestFailedMessage r.status))), [.http req]⟩

/-- `VideoService.remixVideo` (lines 123–156). -/
def remixVideoRun (cfg : ServiceConfig) (sourceVideoId : String) (prompt : String)
    (sdk : SdkCall → Except ThrownValue VideoJob)
    (http : HttpRequest → HttpResponse) : RunResult VideoJob :=
  match cfg.mode with
  | .frontend =>
    if truthy cfg.clientApiKey then
      let call := SdkCall.remix (cfg.clientApiKey.getD "") cfg.baseURL sourceVideoId prompt
      match sdk call with
      | .ok video => ⟨.ok video, [.sdk call]⟩
      | .error e => ⟨.error (handleFrontendError e), [.sdk call]⟩
    else ⟨.error apiKeyRequiredError, []⟩
  | .backend =>
    let req : HttpRequest := ⟨"/api/videos/" ++ sourceVideoId ++ "/remix", "POST",
      [("Content-Type", "application/json")], .jsonRemix ⟨prompt, cfg.clientPasswordHash⟩⟩
    let r := http req
    if r.ok then
      if r.jsonFails then ⟨.error .jsonParseError, [.http req]⟩
      else ⟨.ok r.jobBody, [.http req]⟩
    else
      if r.jsonFails then ⟨.error .jsonParseError, [.http req]⟩
      else ⟨.error (.transportError (errorOrFallback r.errorField
        (apiRequestFailedMessage r.status))), [.http req]⟩

/-- `VideoService.retrieveVideo` (lines 158–183).  The backend failure
path uses `statusText` only and never reads the response body. -/
def retrieveVideoRun (cfg : ServiceConfig) (videoId : String)
    (sdk : SdkCall → Except ThrownValue VideoJob)
    (http : HttpRequest → HttpResponse) : RunResult VideoJob :=
  match cfg.mode with
  | .frontend =>
    if truthy cfg.clientApiKey then
      let call := SdkCall.retrieve (cfg.clientApiKey.getD "") cfg.baseURL videoId
      match sdk call with
      | .ok video => ⟨.ok video, [.sdk call]⟩
      | .error e => ⟨.error (handleFrontendError e), [.sdk call]⟩
    else ⟨.error apiKeyRequiredError, []⟩
  | .backend =>
    let req : HttpRequest := ⟨"/api/videos/" ++ videoId, "GET",
      (if truthy cfg.clientPasswordHash then
        [("x-password-hash", cfg.clientPasswordHash.getD "")]
      else []), .empty⟩
    let r := http req
    if r.ok then
      if r.jsonFails then ⟨.error .jsonParseError, [.http req]⟩
      else ⟨.ok r.jobBody, [.http req]⟩
    else ⟨.error (.transportError ("Failed to fetch job status: " ++ r.statusText)),
      [.http req]⟩

/-- `VideoService.deleteVideo` (lines 185–209). -/
def deleteVideoRun (cfg : ServiceConfig) (videoId : String)
    (sdk : SdkCall → Except ThrownValue Unit)
    (http : HttpRequest → HttpResponse) : RunResult Unit :=
  match cfg.mode with
  | .frontend =>
    if truthy cfg.clientApiKey then
      let call := SdkCall.del (cfg.clientApiKey.getD "") cfg.baseURL videoId
      match sdk call with
      | .ok _ => ⟨.ok (), [.sdk call]⟩
      | .error e => ⟨.error (handleFrontendError e), [.sdk call]⟩
    else ⟨.error apiKeyRequiredError, []⟩
  | .backend =>
    let req : HttpRequest := ⟨"/api/videos/" ++ videoId, "DELETE",
      (if truthy cfg.clientPasswordHash then
        [("x-password-hash", cfg.clientPasswordHash.getD "")]
      else []), .empty⟩
    let r := http req
    if r.ok then ⟨.ok (), [.http req]⟩
    else
      if r.jsonFails then ⟨.error .jsonParseError, [.http req]⟩
      else ⟨.error (.transportError (errorOrFallback r.errorField "Failed to delete video")),
        [.http req]⟩

/-- The `'video' | 'thumbnail' | 'spritesheet'` union of `downloadContent`. -/
inductive Variant where
  | video
  | thumbnail
  | spritesheet
  deriving DecidableEq, Repr

/-- The string a variant interpolates to. -/
def Variant.str : Variant → String
  | .video => "video"
  | .thumbnail => "thumbnail"
  | .spritesheet => "spritesheet"

/-- Upper-case hexadecimal digit for `n < 16`. -/
def hexUpper (n : Nat) : Char :=
  if n < 10 then Char.ofNat (48 + n) else Char.ofNat (55 + n)

/-- `%XX` escape of one byte. -/
def percentEncodeByte (b : UInt8) : String :=
  String.mk ['%', hexUpper (b.toNat / 16), hexUpper (b.toNat % 16)]

/-- The characters JS `encodeURIComponent` leaves unescaped. -/
def isUriUnreserved (c : Char) : Bool :=
  ('A' ≤ c && c ≤ 'Z') || ('a' ≤ c && c ≤ 'z') || ('0' ≤ c && c ≤ '9') ||
  c == '-' || c == '_' || c == '.' || c == '!' || c == '~' || c == '*' ||
  c == Char.ofNat 39 || c == '(' || c == ')'

/-- One character of `encodeURIComponent` output: unreserved characters
pass through, everything else is percent-encoded as its UTF-8 bytes. -/
def encodeUriChar (c : Char) : String :=
  if isUriUnreserved c then String.mk [c]
  else String.join ((String.mk [c]).toUTF8.toList.map percentEncodeByte)

/-- Model of JS `encodeURIComponent` (used at line 231). -/
def encodeURIComponent (s : String) : String :=
  String.join (s.data.map encodeUriChar)

/-- `VideoService.downloadContent` (lines 211–244) with an explicit
variant argument. -/
def downloadContentVariantRun (cfg : ServiceConfig) (videoId : String)
    (sdk : SdkCall → Except ThrownValue Blob)
    (http : HttpRequest → HttpResponse) (variant : Variant) : RunResult Blob :=
  match cfg.mode with
  | .frontend =>
    if truthy cfg.clientApiKey then
      let call := SdkCall.download (cfg.clientApiKey.getD "") cfg.baseURL videoId variant.str
      match sdk call with
      | .ok b => ⟨.ok b, [.sdk call]⟩
      | .error e => ⟨.error (handleFrontendError e), [.sdk call]⟩
    else ⟨.error apiKeyRequiredError, []⟩
  | .backend =>
    let url := "/api/videos/" ++ videoId ++ "/content?variant=" ++ variant.str
    let fullUrl :=
      if truthy cfg.clientPasswordHash then
        url ++ "&password-hash=" ++ encodeURIComponent (cfg.clientPasswordHash.getD "")
      else url
    let req : HttpRequest := ⟨fullUrl, "GET",
      (if truthy cfg.clientPasswordHash then
        [("x-password-hash", cfg.clientPasswordHash.getD "")]
      else []), .empty⟩
    let r := http req
    if r.ok then ⟨.ok r.blobBody, [.http req]⟩
    else ⟨.error (.transportError ("Failed to download " ++ variant.str ++ ": " ++ r.statusText)),
      [.http req]⟩

/-- `downloadContent` as invoked without a variant argument: the source
declares the default parameter `variant = 'video'` (line 213). -/
def downloadContentRun (cfg : ServiceConfig) (videoId : String)
    (sdk : SdkCall → Except ThrownValue Blob)
    (http : HttpRequest → HttpResponse) : RunResult Blob :=
  downloadContentVariantRun cfg videoId sdk http Variant.video

/-! ## Claims -/

/-- C1 counterexample: the numeric strings `"08"` and `"8abc"` parse to the
positive integer 8, are accepted, and are returned verbatim — not as the
canonical string `"8"` of the parsed integer the claim promises. -/
theorem C1_counterexample :
    jsParseInt "08" = some 8 ∧ normalizeSeconds "08" = Except.ok "08" ∧
    jsParseInt "8abc" = some 8 ∧ normalizeSeconds "8abc" = Except.ok "8abc" ∧
    ("08" : String) ≠ "8" ∧ ("8abc" : String) ≠ "8" :=
  ⟨rfl, rfl, rfl, rfl, by decide, by decide⟩

/-- C1 (amended): `normalizeSeconds` either returns its input string
unchanged or fails with the duration `ValidationError`; it fails exactly
when `parseInt(value, 10)` is `NaN` or yields an integer `≤ 0`; and when it
fails, `createVideo` returns that error having issued no transport call. -/
theorem C1_normalizeSeconds_spec (s : String) :
    (normalizeSeconds s = Except.ok s ∨
      normalizeSeconds s = Except.error (VideoError.validationError (invalidDurationMessage s))) ∧
    ((∃ e, normalizeSeconds s = Except.error e) ↔
      (jsParseInt s = none ∨ ∃ n, jsParseInt s = some n ∧ n ≤ 0)) ∧
    (∀ (cfg : ServiceConfig) (params : CreateParams)
      (sdk : SdkCall → Except ThrownValue VideoJob) (http : HttpRequest → HttpResponse)
      (e : VideoError), params.seconds = s → normalizeSeconds s = Except.error e →
      createVideoRun cfg params sdk http = ⟨Except.error e, []⟩) := by
  refine ⟨?_, ⟨?_, ?_⟩, ?_⟩
  · rcases h : jsParseInt s with _ | n
    · exact Or.inr (by simp [normalizeSeconds, h])
    · by_cases hn : n ≤ 0
      · exact Or.inr (by simp [normalizeSeconds, h, hn])
      · exact Or.inl (by simp [normalizeSeconds, h, hn])
  · rintro ⟨e, he⟩
    rcases h : jsParseInt s with _ | n
    · exact Or.inl rfl
    · refine Or.inr ⟨n, rfl, ?_⟩
      by_contra hn
      simp [normalizeSeconds, h, hn] at he
  · rintro (h | ⟨n, h, hn⟩)
    · exact ⟨VideoError.validationError (invalidDurationMessage s), by simp [normalizeSeconds, h]⟩
    · exact ⟨VideoError.validationError (invalidDurationMessage s), by simp [normalizeSeconds, h, hn]⟩
  · intro cfg params sdk http e hps he
    subst hps
    simp [createVideoRun, he]

/-- C1 witness: at the rejected duration `"0"`, `createVideo` fails with
the validation error and the transport spy records zero invocations. -/
theorem C1_witness :
    createVideoRun ⟨ApiMode.backend, none, none, none⟩ ⟨"sora-2", "cat", "1280x720", "0", none⟩
      (fun _ => Except.error (ThrownValue.primitive ""))
      (fun _ => ⟨true, 200, "", false, none, ⟨"", "", []⟩, ⟨[]⟩⟩) =
    ⟨Except.error (VideoError.validationError (invalidDurationMessage "0")), []⟩ :=
  (C1_normalizeSeconds_spec "0").2.2 _ _ _ _ _ rfl rfl

/-- `takeWhile`/`dropWhile` with the digit predicate on a digit list
followed by `'x'`. -/
theorem takeWhile_digits_append (l1 l2 : List Char) (h : l1.all isDigitChar = true) :
    (l1 ++ 'x' :: l2).takeWhile isDigitChar = l1 ∧
    (l1 ++ 'x' :: l2).dropWhile isDigitChar = 'x' :: l2 := by
  induction l1 with
  | nil =>
    constructor <;>
      simp [List.takeWhile_cons, List.dropWhile_cons, (by decide : isDigitChar 'x' = false)]
  | cons c cs ih =>
    simp only [List.all_cons, Bool.and_eq_true] at h
    have := ih h.2
    constructor <;>
      simp [List.takeWhile_cons, List.dropWhile_cons, h.1, this.1, this.2]

/-- C8: `normalizeSize` returns a string matching `^\d+x\d+$` unchanged,
fails with the size `ValidationError` on any other string, and accepts
`<digits>x<digits>` for arbitrary digit runs — no bound on the numbers. -/
theorem C8_normalizeSize_spec (s : String) :
    (sizeRegexTest s = true → normalizeSize s = Except.ok s) ∧
    (sizeRegexTest s = false →
      normalizeSize s = Except.error (VideoError.validationError (invalidSizeMessage s))) ∧
    (∀ l1 l2 : List Char, l1 ≠ [] → l2 ≠ [] → l1.all isDigitChar = true →
      l2.all isDigitChar = true → sizeRegexTest (String.mk (l1 ++ 'x' :: l2)) = true) := by
  refine ⟨?_, ?_, ?_⟩
  · intro h; simp [normalizeSize, h]
  · intro h; simp [normalizeSize, h]
  · intro l1 l2 h1 h2 hd1 hd2
    have hw := takeWhile_digits_append l1 l2 hd1
    simp [sizeRegexTest, hw.1, hw.2, h1, h2, hd2]

/-- C8 witness: the unbounded size `"99999999x1"` is accepted verbatim and
the malformed `"1280x720x3"` is rejected with the validation error. -/
theorem C8_witness :
    normalizeSize "99999999x1" = Except.ok "99999999x1" ∧
    normalizeSize "1280x720x3" =
      Except.error (VideoError.validationError (invalidSizeMessage "1280x720x3")) :=
  ⟨(C8_normalizeSize_spec "99999999x1").1 rfl, (C8_normalizeSize_spec "1280x720x3").2.1 rfl⟩

/-- C2: in provider-direct (frontend) mode with no usable credential,
`createVideo` issues no transport call for any input, and every operation
(createVideo under valid inputs, remix, retrieve, delete, downloadContent)
fails with the `ConfigurationError` `'API key is required for frontend
mode'` with zero transport invocations. -/
theorem C2_frontend_requires_credential (key hash base : Option String)
    (hkey : truthy key = false) :
    (∀ (params : CreateParams) (sdk : SdkCall → Except ThrownValue VideoJob)
      (http : HttpRequest → HttpResponse),
      (createVideoRun ⟨ApiMode.frontend, key, hash, base⟩ params sdk http).calls = []) ∧
    (∀ (params : CreateParams) (s6 s5 : String) (sdk : SdkCall → Except ThrownValue VideoJob)
      (http : HttpRequest → HttpResponse),
      normalizeSeconds params.seconds = Except.ok s6 →
      normalizeSize params.size = Except.ok s5 →
      createVideoRun ⟨ApiMode.frontend, key, hash, base⟩ params sdk http =
        ⟨Except.error apiKeyRequiredError, []⟩) ∧
    (∀ (id prompt : String) (sdk : SdkCall → Except ThrownValue VideoJob)
      (http : HttpRequest → HttpResponse),
      remixVideoRun ⟨ApiMode.frontend, key, hash, base⟩ id prompt sdk http =
        ⟨Except.error apiKeyRequiredError, []⟩) ∧
    (∀ (id : String) (sdk : SdkCall → Except ThrownValue VideoJob)
      (http : HttpRequest → HttpResponse),
      retrieveVideoRun ⟨ApiMode.frontend, key, hash, base⟩ id sdk http =
        ⟨Except.error apiKeyRequiredError, []⟩) ∧
    (∀ (id : String) (sdk : SdkCall → Except ThrownValue Unit)
      (http : HttpRequest → HttpResponse),
      deleteVideoRun ⟨ApiMode.frontend, key, hash, base⟩ id sdk http =
        ⟨Except.error apiKeyRequiredError, []⟩) ∧
    (∀ (id : String) (sdk : SdkCall → Except ThrownValue Blob)
      (http : HttpRequest → HttpResponse) (variant : Variant),
      downloadContentVariantRun ⟨ApiMode.frontend, key, hash, base⟩ id sdk http variant =
        ⟨Except.error apiKeyRequiredError, []⟩) := by
  refine ⟨?_, ?_, ?_, ?_, ?_, ?_⟩
  · intro params sdk http
    rcases h1 : normalizeSeconds params.seconds with e1 | s6
    · simp [createVideoRun, h1]
    · rcases h2 : normalizeSize params.size with e2 | s5
      · simp [createVideoRun, h1, h2]
      · simp [createVideoRun, h1, h2, hkey]
  · intro params s6 s5 sdk http h1 h2
    simp [createVideoRun, h1, h2, hkey]
  · intro id prompt sdk http
    simp [remixVideoRun, hkey]
  · intro id sdk http
    simp [retrieveVideoRun, hkey]
  · intro id sdk http
    simp [deleteVideoRun, hkey]
  · intro id sdk http variant
    simp [downloadContentVariantRun, hkey]

/-- C2 witness: with no credential configured, a concrete frontend-mode
`createVideo` fails with the configuration error and records no call. -/
theorem C2_witness :
    createVideoRun ⟨ApiMode.frontend, none, none, none⟩ ⟨"sora-2", "cat", "1280x720", "8", none⟩
      (fun _ => Except.error (ThrownValue.primitive ""))
      (fun _ => ⟨true, 200, "", false, none, ⟨"", "", []⟩, ⟨[]⟩⟩) =
    ⟨Except.error apiKeyRequiredError, []⟩ :=
  (C2_frontend_requires_credential none none none rfl).2.1 _ "8" "1280x720" _ _ rfl rfl

/-- C3: `handleFrontendError` maps any thrown value whose numeric `status`
is 401 or 403 or whose string `code` is `'invalid_api_key'` to
`InvalidApiKeyError` regardless of its message, re-raises any other
`Error` unchanged, and every operation run in frontend mode propagates
this translation when its transport call throws. -/
theorem C3_frontend_error_translation (key hash base : Option String)
    (hkey : truthy key = true) (e : ThrownValue) (http : HttpRequest → HttpResponse) :
    (isAuthFailureValue e = true → handleFrontendError e = VideoError.invalidApiKeyError) ∧
    (isAuthFailureValue e = false →
      ∀ (st : Option Int) (code : Option String) (msg : String),
        e = ThrownValue.obj st code true msg →
        handleFrontendError e = VideoError.rethrownError e) ∧
    (∀ (params : CreateParams) (s6 s5 : String),
      normalizeSeconds params.seconds = Except.ok s6 →
      normalizeSize params.size = Except.ok s5 →
      (createVideoRun ⟨ApiMode.frontend, key, hash, base⟩ params
        (fun _ => Except.error e) http).result = Except.error (handleFrontendError e)) ∧
    (∀ id prompt : String,
      (remixVideoRun ⟨ApiMode.frontend, key, hash, base⟩ id prompt
        (fun _ => Except.error e) http).result = Except.error (handleFrontendError e)) ∧
    (∀ id : String,
      (retrieveVideoRun ⟨ApiMode.frontend, key, hash, base⟩ id
        (fun _ => Except.error e) http).result = Except.error (handleFrontendError e)) ∧
    (∀ id : String,
      (deleteVideoRun ⟨ApiMode.frontend, key, hash, base⟩ id
        (fun _ => Except.error e) http).result = Except.error (handleFrontendError e)) ∧
    (∀ (id : String) (variant : Variant),
      (downloadContentVariantRun ⟨ApiMode.frontend, key, hash, base⟩ id
        (fun _ => Except.error e) http variant).result =
        Except.error (handleFrontendError e)) := by
  refine ⟨?_, ?_, ?_, ?_, ?_, ?_, ?_⟩
  · intro h
    cases e with
    | primitive d => simp [isAuthFailureValue] at h
    | obj st code isErr msg =>
      simp only [isAuthFailureValue] at h
      simp [handleFrontendError, h]
  · intro h st code msg he
    subst he
    simp only [isAuthFailureValue] at h
    simp [handleFrontendError, h]
  · intro params s6 s5 h1 h2
    simp [createVideoRun, h1, h2, hkey]
  · intro id prompt
    simp [remixVideoRun, hkey]
  · intro id
    simp [retrieveVideoRun, hkey]
  · intro id
    simp [deleteVideoRun, hkey]
  · intro id variant
    simp [downloadContentVariantRun, hkey]

/-- C3 witness: a thrown object with `status` 401 and an unrelated message
surfaces as `InvalidApiKeyError` from a concrete frontend-mode remix. -/
theorem C3_witness :
    (remixVideoRun ⟨ApiMode.frontend, some "sk-test", none, none⟩ "video_1" "p"
      (fun _ => Except.error (ThrownValue.obj (some 401) none false "Original message"))
      (fun _ => ⟨true, 200, "", false, none, ⟨"", "", []⟩, ⟨[]⟩⟩)).result =
    Except.error VideoError.invalidApiKeyError := by
  have h := C3_frontend_error_translation (some "sk-test") none none rfl
    (ThrownValue.obj (some 401) none false "Original message")
    (fun _ => ⟨true, 200, "", false, none, ⟨"", "", []⟩, ⟨[]⟩⟩)
  rw [h.2.2.2.1 "video_1" "p", h.1 rfl]

/-- C4 counterexample: in backend-proxy mode, `retrieveVideo` given a
non-2xx response whose JSON body carries `error: "quota exceeded"` throws
`'Failed to fetch job status: Internal Server Error'` — the `statusText`
message, not the body's `error` field as the claim states for every
operation. -/
theorem C4_counterexample :
    (retrieveVideoRun ⟨ApiMode.backend, none, none, none⟩ "vid_1"
      (fun _ => Except.error (ThrownValue.primitive ""))
      (fun _ => ⟨false, 500, "Internal Server Error", false, some "quota exceeded",
        ⟨"", "", []⟩, ⟨[]⟩⟩)).result =
      Except.error (VideoError.transportError "Failed to fetch job status: Internal Server Error") ∧
    ("Failed to fetch job status: Internal Server Error" : String) ≠ "quota exceeded" :=
  ⟨rfl, by decide⟩

/-- C4 (amended): in backend-proxy mode a non-2xx response whose JSON body
has a non-empty `error` field surfaces a generic error with exactly that
message for `createVideo`, `remixVideo` and `deleteVideo`; `retrieveVideo`
and `downloadContent` never read the body and use `statusText` instead. -/
theorem C4_backend_error_message (key hash base : Option String) (r : HttpResponse)
    (hok : r.ok = false) (hjson : r.jsonFails = false) (m : String)
    (herr : r.errorField = some m) (hm : (m == "") = false) :
    (∀ (params : CreateParams) (s6 s5 : String) (sdk : SdkCall → Except ThrownValue VideoJob),
      normalizeSeconds params.seconds = Except.ok s6 →
      normalizeSize params.size = Except.ok s5 →
      (createVideoRun ⟨ApiMode.backend, key, hash, base⟩ params sdk (fun _ => r)).result =
        Except.error (VideoError.transportError m)) ∧
    (∀ (id prompt : String) (sdk : SdkCall → Except ThrownValue VideoJob),
      (remixVideoRun ⟨ApiMode.backend, key, hash, base⟩ id prompt sdk (fun _ => r)).result =
        Except.error (VideoError.transportError m)) ∧
    (∀ (id : String) (sdk : SdkCall → Except ThrownValue Unit),
      (deleteVideoRun ⟨ApiMode.backend, key, hash, base⟩ id sdk (fun _ => r)).result =
        Except.error (VideoError.transportError m)) ∧
    (∀ (id : String) (sdk : SdkCall → Except ThrownValue VideoJob),
      (retrieveVideoRun ⟨ApiMode.backend, key, hash, base⟩ id sdk (fun _ => r)).result =
        Except.error (VideoError.transportError
          ("Failed to fetch job status: " ++ r.statusText))) ∧
    (∀ (id : String) (sdk : SdkCall → Except ThrownValue Blob) (variant : Variant),
      (downloadContentVariantRun ⟨ApiMode.backend, key, hash, base⟩ id sdk
        (fun _ => r) variant).result =
        Except.error (VideoError.transportError
          ("Failed to download " ++ variant.str ++ ": " ++ r.statusText))) := by
  refine ⟨?_, ?_, ?_, ?_, ?_⟩
  · intro params s6 s5 sdk h1 h2
    simp [createVideoRun, h1, h2, hok, hjson, errorOrFallback, herr, hm]
  · intro id prompt sdk
    simp [remixVideoRun, hok, hjson, errorOrFallback, herr, hm]
  · intro id sdk
    simp [deleteVideoRun, hok, hjson, errorOrFallback, herr, hm]
  · intro id sdk
    simp [retrieveVideoRun, hok]
  · intro id sdk variant
    simp [downloadContentVariantRun, hok]

/-- C4 witness: a concrete backend-proxy `createVideo` given a 402 response
with body `error: "quota exceeded"` throws exactly `"quota exceeded"`. -/
theorem C4_witness :
    (createVideoRun ⟨ApiMode.backend, none, none, none⟩ ⟨"sora-2", "cat", "1280x720", "8", none⟩
      (fun _ => Except.error (ThrownValue.primitive ""))
      (fun _ => ⟨false, 402, "Payment Required", false, some "quota exceeded",
        ⟨"", "", []⟩, ⟨[]⟩⟩)).result =
    Except.error (VideoError.transportError "quota exceeded") :=
  (C4_backend_error_message none none none
    ⟨false, 402, "Payment Required", false, some "quota exceeded", ⟨"", "", []⟩, ⟨[]⟩⟩
    rfl rfl "quota exceeded" rfl rfl).1 _ "8" "1280x720" _ rfl rfl

/-- C5: `createVideo` with `{model: "sora-2", prompt: "cat",
size: "1280x720", seconds: "8"}` and no attachment in backend-proxy mode
issues exactly one POST to `/api/videos` whose multipart body holds the
four fields with those values, preceded by a `passwordHash` field exactly
when a truthy credential hash is configured, and nothing else. -/
theorem C5_create_multipart_exact_fields (key hash base : Option String)
    (sdk : SdkCall → Except ThrownValue VideoJob) (http : HttpRequest → HttpResponse) :
    (createVideoRun ⟨ApiMode.backend, key, hash, base⟩
      ⟨"sora-2", "cat", "1280x720", "8", none⟩ sdk http).calls =
    [Call.http ⟨"/api/videos", "POST", [],
      HttpBody.form
        ((if truthy hash then [("passwordHash", FormPart.text (hash.getD ""))] else []) ++
         [("model", FormPart.text "sora-2"), ("prompt", FormPart.text "cat"),
          ("size", FormPart.text "1280x720"), ("seconds", FormPart.text "8")])⟩] := by
  have h8 : normalizeSeconds "8" = Except.ok "8" := rfl
  have hsz : normalizeSize "1280x720" = Except.ok "1280x720" := rfl
  simp only [createVideoRun, h8, hsz, List.append_nil]
  split <;> split <;> (try split) <;> rfl

/-- C6: mode equivalence — when the provider-direct SDK oracle and the
backend-proxy HTTP oracle return the same underlying data (job `j`, blob
`b`, or plain success), every operation returns the identical success
value in both modes: `Except.ok j` / `Except.ok b` / `Except.ok ()`. -/
theorem C6_mode_equivalence (key hash base : Option String) (hkey : truthy key = true)
    (j : VideoJob) (b : Blob) (r : HttpResponse) (hok : r.ok = true)
    (hjson : r.jsonFails = false) (hjob : r.jobBody = j) (hblob : r.blobBody = b) :
    (∀ (params : CreateParams) (s6 s5 : String) (http : HttpRequest → HttpResponse)
      (sdk : SdkCall → Except ThrownValue VideoJob),
      normalizeSeconds params.seconds = Except.ok s6 →
      normalizeSize params.size = Except.ok s5 →
      (createVideoRun ⟨ApiMode.frontend, key, hash, base⟩ params
        (fun _ => Except.ok j) http).result = Except.ok j ∧
      (createVideoRun ⟨ApiMode.backend, key, hash, base⟩ params sdk
        (fun _ => r)).result = Except.ok j) ∧
    (∀ (id prompt : String) (http : HttpRequest → HttpResponse)
      (sdk : SdkCall → Except ThrownValue VideoJob),
      (remixVideoRun ⟨ApiMode.frontend, key, hash, base⟩ id prompt
        (fun _ => Except.ok j) http).result = Except.ok j ∧
      (remixVideoRun ⟨ApiMode.backend, key, hash, base⟩ id prompt sdk
        (fun _ => r)).result = Except.ok j) ∧
    (∀ (id : String) (http : HttpRequest → HttpResponse)
      (sdk : SdkCall → Except ThrownValue VideoJob),
      (retrieveVideoRun ⟨ApiMode.frontend, key, hash, base⟩ id
        (fun _ => Except.ok j) http).result = Except.ok j ∧
      (retrieveVideoRun ⟨ApiMode.backend, key, hash, base⟩ id sdk
        (fun _ => r)).result = Except.ok j) ∧
    (∀ (id : String) (http : HttpRequest → HttpResponse)
      (sdk : SdkCall → Except ThrownValue Unit),
      (deleteVideoRun ⟨ApiMode.frontend, key, hash, base⟩ id
        (fun _ => Except.ok ()) http).result = Except.ok () ∧
      (deleteVideoRun ⟨ApiMode.backend, key, hash, base⟩ id sdk
        (fun _ => r)).result = Except.ok ()) ∧
    (∀ (id : String) (http : HttpRequest → HttpResponse)
      (sdk : SdkCall → Except ThrownValue Blob) (variant : Variant),
      (downloadContentVariantRun ⟨ApiMode.frontend, key, hash, base⟩ id
        (fun _ => Except.ok b) http variant).result = Except.ok b ∧
      (downloadContentVariantRun ⟨ApiMode.backend, key, hash, base⟩ id sdk
        (fun _ => r) variant).result = Except.ok b) := by
  refine ⟨?_, ?_, ?_, ?_, ?_⟩
  · intro params s6 s5 http sdk h1 h2
    exact ⟨by simp [createVideoRun, h1, h2, hkey],
      by simp [createVideoRun, h1, h2, hok, hjson, hjob]⟩
  · intro id prompt http sdk
    exact ⟨by simp [remixVideoRun, hkey],
      by simp [remixVideoRun, hok, hjson, hjob]⟩
  · intro id http sdk
    exact ⟨by simp [retrieveVideoRun, hkey],
      by simp [retrieveVideoRun, hok, hjson, hjob]⟩
  · intro id http sdk
    exact ⟨by simp [deleteVideoRun, hkey],
      by simp [deleteVideoRun, hok]⟩
  · intro id http sdk variant
    exact ⟨by simp [downloadContentVariantRun, hkey],
      by simp [downloadContentVariantRun, hok, hblob]⟩

/-- C6 witness: a concrete job retrieved in frontend mode and in backend
mode (oracles returning the same underlying data) is the identical value. -/
theorem C6_witness :
    (retrieveVideoRun ⟨ApiMode.frontend, some "sk-test", some "h", none⟩ "vid_1"
      (fun _ => Except.ok ⟨"vid_1", "completed", [("progress", "100")]⟩)
      (fun _ => ⟨true, 200, "OK", false, none,
        ⟨"vid_1", "completed", [("progress", "100")]⟩, ⟨[]⟩⟩)).result =
      Except.ok (⟨"vid_1", "completed", [("progress", "100")]⟩ : VideoJob) ∧
    (retrieveVideoRun ⟨ApiMode.backend, some "sk-test", some "h", none⟩ "vid_1"
      (fun _ => Except.ok ⟨"vid_1", "completed", [("progress", "100")]⟩)
      (fun _ => ⟨true, 200, "OK", false, none,
        ⟨"vid_1", "completed", [("progress", "100")]⟩, ⟨[]⟩⟩)).result =
      Except.ok (⟨"vid_1", "completed", [("progress", "100")]⟩ : VideoJob) :=
  (C6_mode_equivalence (some "sk-test") (some "h") none rfl
    ⟨"vid_1", "completed", [("progress", "100")]⟩ ⟨[]⟩
    ⟨true, 200, "OK", false, none, ⟨"vid_1", "completed", [("progress", "100")]⟩, ⟨[]⟩⟩
    rfl rfl rfl rfl).2.2.1 "vid_1"
    (fun _ => ⟨true, 200, "OK", false, none,
      ⟨"vid_1", "completed", [("progress", "100")]⟩, ⟨[]⟩⟩)
    (fun _ => Except.ok ⟨"vid_1", "completed", [("progress", "100")]⟩)

/-- C7: credential/hash separation — in backend-proxy mode the whole
observable behaviour (result and every issued request) is independent of
the raw credential `clientApiKey`, and in provider-direct mode it is
independent of `clientPasswordHash`, so neither mode can use, let alone
transmit, the other mode's secret material. -/
theorem C7_secret_separation :
    (∀ (k1 k2 hash base : Option String) (params : CreateParams)
      (sdk : SdkCall → Except ThrownValue VideoJob) (http : HttpRequest → HttpResponse),
      createVideoRun ⟨ApiMode.backend, k1, hash, base⟩ params sdk http =
      createVideoRun ⟨ApiMode.backend, k2, hash, base⟩ params sdk http) ∧
    (∀ (k1 k2 hash base : Option String) (id prompt : String)
      (sdk : SdkCall → Except ThrownValue VideoJob) (http : HttpRequest → HttpResponse),
      remixVideoRun ⟨ApiMode.backend, k1, hash, base⟩ id prompt sdk http =
      remixVideoRun ⟨ApiMode.backend, k2, hash, base⟩ id prompt sdk http) ∧
    (∀ (k1 k2 hash base : Option String) (id : String)
      (sdk : SdkCall → Except ThrownValue VideoJob) (http : HttpRequest → HttpResponse),
      retrieveVideoRun ⟨ApiMode.backend, k1, hash, base⟩ id sdk http =
      retrieveVideoRun ⟨ApiMode.backend, k2, hash, base⟩ id sdk http) ∧
    (∀ (k1 k2 hash base : Option String) (id : String)
      (sdk : SdkCall → Except ThrownValue Unit) (http : HttpRequest → HttpResponse),
      deleteVideoRun ⟨ApiMode.backend, k1, hash, base⟩ id sdk http =
      deleteVideoRun ⟨ApiMode.backend, k2, hash, base⟩ id sdk http) ∧
    (∀ (k1 k2 hash base : Option String) (id : String)
      (sdk : SdkCall → Except ThrownValue Blob) (http : HttpRequest → HttpResponse)
      (variant : Variant),
      downloadContentVariantRun ⟨ApiMode.backend, k1, hash, base⟩ id sdk http variant =
      downloadContentVariantRun ⟨ApiMode.backend, k2, hash, base⟩ id sdk http variant) ∧
    (∀ (key h1 h2 base : Option String) (params : CreateParams)
      (sdk : SdkCall → Except ThrownValue VideoJob) (http : HttpRequest → HttpResponse),
      createVideoRun ⟨ApiMode.frontend, key, h1, base⟩ params sdk http =
      createVideoRun ⟨ApiMode.frontend, key, h2, base⟩ params sdk http) ∧
    (∀ (key h1 h2 base : Option String) (id prompt : String)
      (sdk : SdkCall → Except ThrownValue VideoJob) (http : HttpRequest → HttpResponse),
      remixVideoRun ⟨ApiMode.frontend, key, h1, base⟩ id prompt sdk http =
      remixVideoRun ⟨ApiMode.frontend, key, h2, base⟩ id prompt sdk http) ∧
    (∀ (key h1 h2 base : Option String) (id : String)
      (sdk : SdkCall → Except ThrownValue VideoJob) (http : HttpRequest → HttpResponse),
      retrieveVideoRun ⟨ApiMode.frontend, key, h1, base⟩ id sdk http =
      retrieveVideoRun ⟨ApiMode.frontend, key, h2, base⟩ id sdk http) ∧
    (∀ (key h1 h2 base : Option String) (id : String)
      (sdk : SdkCall → Except ThrownValue Unit) (http : HttpRequest → HttpResponse),
      deleteVideoRun ⟨ApiMode.frontend, key, h1, base⟩ id sdk http =
      deleteVideoRun ⟨ApiMode.frontend, key, h2, base⟩ id sdk http) ∧
    (∀ (key h1 h2 base : Option String) (id : String)
      (sdk : SdkCall → Except ThrownValue Blob) (http : HttpRequest → HttpResponse)
      (variant : Variant),
      downloadContentVariantRun ⟨ApiMode.frontend, key, h1, base⟩ id sdk http variant =
      downloadContentVariantRun ⟨ApiMode.frontend, key, h2, base⟩ id sdk http variant) := by
  refine ⟨?_, ?_, ?_, ?_, ?_, ?_, ?_, ?_, ?_, ?_⟩
  · intro k1 k2 hash base params sdk http
    rcases h1 : normalizeSeconds params.seconds with e | s6
    · simp [createVideoRun, h1]
    · rcases h2 : normalizeSize params.size with e | s5 <;> simp [createVideoRun, h1, h2]
  · intro k1 k2 hash base id prompt sdk http; rfl
  · intro k1 k2 hash base id sdk http; rfl
  · intro k1 k2 hash base id sdk http; rfl
  · intro k1 k2 hash base id sdk http variant; rfl
  · intro key h1 h2 base params sdk http
    rcases hn1 : normalizeSeconds params.seconds with e | s6
    · simp [createVideoRun, hn1]
    · rcases hn2 : normalizeSize params.size with e | s5 <;> simp [createVideoRun, hn1, hn2]
  · intro key h1 h2 base id prompt sdk http; rfl
  · intro key h1 h2 base id sdk http; rfl
  · intro key h1 h2 base id sdk http; rfl
  · intro key h1 h2 base id sdk http variant; rfl

/-- C9: `downloadContent` invoked without a variant argument uses
`"video"` in both modes: it coincides with the explicit-variant call at
`Variant.video`, the SDK call carries the variant string `"video"`, and
the backend request URL carries `variant=` followed by `"video"`. -/
theorem C9_download_default_variant (key hash base : Option String) (id : String)
    (sdk : SdkCall → Except ThrownValue Blob) (http : HttpRequest → HttpResponse) :
    (∀ mode : ApiMode, downloadContentRun ⟨mode, key, hash, base⟩ id sdk http =
      downloadContentVariantRun ⟨mode, key, hash, base⟩ id sdk http Variant.video) ∧
    (truthy key = true →
      (downloadContentRun ⟨ApiMode.frontend, key, hash, base⟩ id sdk http).calls =
        [Call.sdk (SdkCall.download (key.getD "") base id "video")]) ∧
    ((downloadContentRun ⟨ApiMode.backend, key, hash, base⟩ id sdk http).calls =
      [Call.http ⟨(if truthy hash then
          "/api/videos/" ++ id ++ "/content?variant=" ++ "video" ++ "&password-hash=" ++
            encodeURIComponent (hash.getD "")
        else "/api/videos/" ++ id ++ "/content?variant=" ++ "video"), "GET",
        (if truthy hash then [("x-password-hash", hash.getD "")] else []),
        HttpBody.empty⟩]) := by
  refine ⟨fun mode => rfl, ?_, ?_⟩
  · intro hk
    simp only [downloadContentRun, downloadContentVariantRun, hk, if_true]
    split <;> rfl
  · simp only [downloadContentRun, downloadContentVariantRun]
    cases htr : truthy hash <;> simp only [htr, Bool.false_eq_true, if_false, if_true] <;>
      split <;> rfl

/-- C9 witness: without a variant argument, a concrete backend download
requests `variant=video` and a concrete frontend download passes
`"video"` to the SDK. -/
theorem C9_witness :
    (downloadContentRun ⟨ApiMode.backend, none, none, none⟩ "vid_1"
      (fun _ => Except.error (ThrownValue.primitive ""))
      (fun _ => ⟨true, 200, "OK", false, none, ⟨"", "", []⟩, ⟨[7]⟩⟩)).calls =
      [Call.http ⟨"/api/videos/" ++ "vid_1" ++ "/content?variant=" ++ "video", "GET", [],
        HttpBody.empty⟩] ∧
    (downloadContentRun ⟨ApiMode.frontend, some "sk-test", none, none⟩ "vid_1"
      (fun _ => Except.error (ThrownValue.primitive ""))
      (fun _ => ⟨true, 200, "OK", false, none, ⟨"", "", []⟩, ⟨[7]⟩⟩)).calls =
      [Call.sdk (SdkCall.download "sk-test" none "vid_1" "video")] :=
  ⟨(C9_download_default_variant none none none "vid_1"
      (fun _ => Except.error (ThrownValue.primitive ""))
      (fun _ => ⟨true, 200, "OK", false, none, ⟨"", "", []⟩, ⟨[7]⟩⟩)).2.2,
    (C9_download_default_variant (some "sk-test") none none "vid_1"
      (fun _ => Except.error (ThrownValue.primitive ""))
      (fun _ => ⟨true, 200, "OK", false, none, ⟨"", "", []⟩, ⟨[7]⟩⟩)).2.1 rfl⟩

/-- The only error `normalizeSeconds` produces is the duration
`ValidationError`. -/
theorem normalizeSeconds_error_shape (s : String) (e : VideoError)
    (h : normalizeSeconds s = Except.error e) :
    e = VideoError.validationError (invalidDurationMessage s) := by
  rcases hp : jsParseInt s with _ | n
  · simp [normalizeSeconds, hp] at h
    exact h.symm
  · by_cases hn : n ≤ 0
    · simp [normalizeSeconds, hp, hn] at h
      exact h.symm
    · simp [normalizeSeconds, hp, hn] at h

/-- The only error `normalizeSize` produces is the size
`ValidationError`. -/
theorem normalizeSize_error_shape (s : String) (e : VideoError)
    (h : normalizeSize s = Except.error e) :
    e = VideoError.validationError (invalidSizeMessage s) := by
  by_cases hr : sizeRegexTest s
  · simp [normalizeSize, hr] at h
  · simp [normalizeSize, hr] at h
    exact h.symm

/-- C10: in backend-proxy mode no operation requires a credential hash:
no run ever fails with a `ConfigurationError` (any hash, any response),
and when no truthy hash is configured each operation still issues its one
HTTP request, carrying no `passwordHash` form field, no `x-password-hash`
header and no `password-hash` query suffix. -/
theorem C10_backend_never_requires_hash (key base hash : Option String)
    (hh : truthy hash = false) :
    (∀ (hash2 : Option String) (params : CreateParams)
      (sdk : SdkCall → Except ThrownValue VideoJob) (http : HttpRequest → HttpResponse)
      (m : String),
      (createVideoRun ⟨ApiMode.backend, key, hash2, base⟩ params sdk http).result ≠
        Except.error (VideoError.configurationError m)) ∧
    (∀ (hash2 : Option String) (id prompt : String)
      (sdk : SdkCall → Except ThrownValue VideoJob) (http : HttpRequest → HttpResponse)
      (m : String),
      (remixVideoRun ⟨ApiMode.backend, key, hash2, base⟩ id prompt sdk http).result ≠
        Except.error (VideoError.configurationError m)) ∧
    (∀ (hash2 : Option String) (id : String)
      (sdk : SdkCall → Except ThrownValue VideoJob) (http : HttpRequest → HttpResponse)
      (m : String),
      (retrieveVideoRun ⟨ApiMode.backend, key, hash2, base⟩ id sdk http).result ≠
        Except.error (VideoError.configurationError m)) ∧
    (∀ (hash2 : Option String) (id : String)
      (sdk : SdkCall → Except ThrownValue Unit) (http : HttpRequest → HttpResponse)
      (m : String),
      (deleteVideoRun ⟨ApiMode.backend, key, hash2, base⟩ id sdk http).result ≠
        Except.error (VideoError.configurationError m)) ∧
    (∀ (hash2 : Option String) (id : String)
      (sdk : SdkCall → Except ThrownValue Blob) (http : HttpRequest → HttpResponse)
      (variant : Variant) (m : String),
      (downloadContentVariantRun ⟨ApiMode.backend, key, hash2, base⟩ id sdk http
        variant).result ≠ Except.error (VideoError.configurationError m)) ∧
    (∀ (params : CreateParams) (s6 s5 : String)
      (sdk : SdkCall → Except ThrownValue VideoJob) (http : HttpRequest → HttpResponse),
      normalizeSeconds params.seconds = Except.ok s6 →
      normalizeSize params.size = Except.ok s5 →
      (createVideoRun ⟨ApiMode.backend, key, hash, base⟩ params sdk http).calls =
        [Call.http ⟨"/api/videos", "POST", [], HttpBody.form
          ([("model", FormPart.text params.model), ("prompt", FormPart.text params.prompt),
            ("size", FormPart.text s5), ("seconds", FormPart.text s6)] ++
           (match params.input_reference with
            | some f => [("input_reference", FormPart.file f)]
            | none => []))⟩]) ∧
    (∀ (id prompt : String) (sdk : SdkCall → Except ThrownValue VideoJob)
      (http : HttpRequest → HttpResponse),
      (remixVideoRun ⟨ApiMode.backend, key, hash, base⟩ id prompt sdk http).calls =
        [Call.http ⟨"/api/videos/" ++ id ++ "/remix", "POST",
          [("Content-Type", "application/json")], HttpBody.jsonRemix ⟨prompt, hash⟩⟩]) ∧
    (∀ (id : String) (sdk : SdkCall → Except ThrownValue VideoJob)
      (http : HttpRequest → HttpResponse),
      (retrieveVideoRun ⟨ApiMode.backend, key, hash, base⟩ id sdk http).calls =
        [Call.http ⟨"/api/videos/" ++ id, "GET", [], HttpBody.empty⟩]) ∧
    (∀ (id : String) (sdk : SdkCall → Except ThrownValue Unit)
      (http : HttpRequest → HttpResponse),
      (deleteVideoRun ⟨ApiMode.backend, key, hash, base⟩ id sdk http).calls =
        [Call.http ⟨"/api/videos/" ++ id, "DELETE", [], HttpBody.empty⟩]) ∧
    (∀ (id : String) (sdk : SdkCall → Except ThrownValue Blob)
      (http : HttpRequest → HttpResponse) (variant : Variant),
      (downloadContentVariantRun ⟨ApiMode.backend, key, hash, base⟩ id sdk http
        variant).calls =
        [Call.http ⟨"/api/videos/" ++ id ++ "/content?variant=" ++ variant.str, "GET", [],
          HttpBody.empty⟩]) := by
  refine ⟨?_, ?_, ?_, ?_, ?_, ?_, ?_, ?_, ?_, ?_⟩
  · intro hash2 params sdk http m
    rcases h1 : normalizeSeconds params.seconds with e | s6
    · have he := normalizeSeconds_error_shape _ _ h1
      subst he
      simp [createVideoRun, h1]
    · rcases h2 : normalizeSize params.size with e | s5
      · have he := normalizeSize_error_shape _ _ h2
        subst he
        simp [createVideoRun, h1, h2]
      · simp only [createVideoRun, h1, h2]
        split <;> (try split) <;> (try split) <;> simp
  · intro hash2 id prompt sdk http m
    simp only [remixVideoRun]
    split <;> (try split) <;> simp
  · intro hash2 id sdk http m
    simp only [retrieveVideoRun]
    split <;> (try split) <;> (try split) <;> simp
  · intro hash2 id sdk http m
    simp only [deleteVideoRun]
    split <;> (try split) <;> (try split) <;> simp
  · intro hash2 id sdk http variant m
    simp only [downloadContentVariantRun]
    split <;> (try split) <;> simp
  · intro params s6 s5 sdk http h1 h2
    simp only [createVideoRun, h1, h2, hh, Bool.false_eq_true, if_false, List.nil_append]
    split <;> (try split) <;> rfl
  · intro id prompt sdk http
    simp only [remixVideoRun]
    split <;> (try split) <;> rfl
  · intro id sdk http
    simp only [retrieveVideoRun, hh, Bool.false_eq_true, if_false]
    split <;> (try split) <;> rfl
  · intro id sdk http
    simp only [deleteVideoRun, hh, Bool.false_eq_true, if_false]
    split <;> (try split) <;> rfl
  · intro id sdk http variant
    simp only [downloadContentVariantRun, hh, Bool.false_eq_true, if_false]
    split <;> rfl

/-- C10 witness: with no credential hash configured, a concrete backend
retrieve issues its plain request — no header, no hash channel — and a
concrete backend create's multipart body holds only the four fields. -/
theorem C10_witness :
    (retrieveVideoRun ⟨ApiMode.backend, none, none, none⟩ "vid_1"
      (fun _ => Except.error (ThrownValue.primitive ""))
      (fun _ => ⟨true, 200, "OK", false, none, ⟨"", "", []⟩, ⟨[]⟩⟩)).calls =
      [Call.http ⟨"/api/videos/" ++ "vid_1", "GET", [], HttpBody.empty⟩] ∧
    (createVideoRun ⟨ApiMode.backend, none, none, none⟩ ⟨"sora-2", "cat", "1280x720", "8", none⟩
      (fun _ => Except.error (ThrownValue.primitive ""))
      (fun _ => ⟨true, 200, "OK", false, none, ⟨"", "", []⟩, ⟨[]⟩⟩)).calls =
      [Call.http ⟨"/api/videos", "POST", [], HttpBody.form
        ([("model", FormPart.text "sora-2"), ("prompt", FormPart.text "cat"),
          ("size", FormPart.text "1280x720"), ("seconds", FormPart.text "8")] ++ [])⟩] :=
  ⟨(C10_backend_never_requires_hash none none none rfl).2.2.2.2.2.2.2.1 "vid_1" _ _,
    (C10_backend_never_requires_hash none none none rfl).2.2.2.2.2.1 _ "8" "1280x720" _ _
      rfl rfl⟩

end VideoServiceModel
